import Mathlib

/-!
# Verification of the measurement scheduling and orchestration core

Shallow embedding of `app/services/cron_scheduler.py`,
`app/services/measurement_service.py`,
`app/controllers/measurement_controller.py` and
`app/repository/settings_repository.py` from the Project-ASS backend,
with theorems settling the spec's claims about schedule computation,
idempotent reconfiguration, and partial-failure orchestration.

Timestamps are modelled as rational numbers of minutes since an arbitrary
epoch (Python `datetime` arithmetic via `total_seconds() / 60` is exact on
this scale for the quantities involved, and the source never relies on
sub-minute float rounding).  Machine integers are `Int`/`Nat` — Python
integers are unbounded, so no overflow modelling is needed.
-/

namespace ProjectASS

/-! ## Scheduler: `CronScheduler.set_new_schedule` (cron_scheduler.py) -/

/-- The past-start-time adjustment of `CronScheduler.set_new_schedule`
(cron_scheduler.py lines 202-218).  `now` and `start_time` are instants in
minutes; `minutes_interval` is the configured frequency in minutes.

```python
if start_time < now:
    time_diff = (now - start_time).total_seconds() / 60  # in minutes
    intervals_passed = int(time_diff / minutes_interval) + 1
    start_time = start_time + timedelta(minutes=intervals_passed * minutes_interval)
```
Python's `int()` truncates toward zero; `time_diff` is non-negative in this
branch, so it agrees with the floor. -/
def adjustStartTime (minutes_interval : ℤ) (now start_time : ℚ) : ℚ :=
  if start_time < now then
    let time_diff : ℚ := now - start_time
    let intervals_passed : ℤ := ⌊time_diff / (minutes_interval : ℚ)⌋ + 1
    start_time + (intervals_passed : ℚ) * (minutes_interval : ℚ)
  else start_time

/-- Observable state of the singleton `CronScheduler` (cron_scheduler.py
`__init__`): whether a live asyncio task is armed (`self.task` is set and not
done), the interval, the next scheduled fire instant, and the tracked
configuration id. -/
structure SchedulerState where
  taskActive : Bool
  minutesInterval : ℤ
  nextScheduledDate : Option ℚ
  configId : Option ℤ
  deriving Repr, DecidableEq

/-- Side effects of one `set_new_schedule` call on the asyncio loop:
whether an existing task was cancelled and whether a new task was created. -/
structure ScheduleEvents where
  cancelledExisting : Bool
  createdTask : Bool
  deriving Repr, DecidableEq

/-- Transition modelling `CronScheduler.set_new_schedule(minutes_interval, start_time, config_id)`
(cron_scheduler.py lines 143-247) as a transition on the scheduler state,
also reporting the timer-task side effects.  Mirrors the source order:
1. if `config_id` is not None and equals the stored `config_id`, return
   without touching anything;
2. store a non-None `config_id`;
3. cancel a live task;
4. if `minutes_interval <= 0`, clear `next_scheduled_date` and return;
5. otherwise record the interval, default a missing `start_time` to
   `now + interval`, ceiling-align a past `start_time`, store it as
   `next_scheduled_date` and create the schedule task. -/
def set_new_schedule (s : SchedulerState) (minutes_interval : ℤ)
    (start_time : Option ℚ) (config_id : Option ℤ) (now : ℚ) :
    SchedulerState × ScheduleEvents :=
  if config_id ≠ none ∧ config_id = s.configId then
    (s, ⟨false, false⟩)
  else
    let s1 : SchedulerState :=
      match config_id with
      | none => s
      | some c => { s with configId := some c }
    let cancelled := s1.taskActive
    let s2 : SchedulerState := { s1 with taskActive := false }
    if minutes_interval ≤ 0 then
      ({ s2 with nextScheduledDate := none }, ⟨cancelled, false⟩)
    else
      let s3 : SchedulerState := { s2 with minutesInterval := minutes_interval }
      let start : ℚ :=
        match start_time with
        | none => now + (minutes_interval : ℚ)
        | some t => adjustStartTime minutes_interval now t
      ({ s3 with nextScheduledDate := some start, taskActive := true },
       ⟨cancelled, true⟩)

/-! ## Recurring loop: `CronScheduler._job_wrapper` (cron_scheduler.py lines 55-141)

One iteration of the `while True` loop.  The body updates
`next_scheduled_date`, fetches the configuration, calls
`start_measurement_by_config`, logs an error if that returned `None`,
invokes the registered job callback with `scheduled=True`, then sleeps
`minutes_interval * 60` seconds.  Any exception raised anywhere in the body
is caught by the `except` clause, logged, and followed by a 60-second sleep;
the loop never exits on its own. -/

/-- Failure profile of one loop iteration: whether the configuration fetch
raises, whether `start_measurement_by_config` returns a measurement (it
catches its own exceptions and returns `None` on failure, never raising),
and whether the registered job callback raises. -/
structure JobIterationInput where
  minutesInterval : ℤ
  fetchConfigRaises : Bool
  orchestrationSucceeds : Bool
  callbackRaises : Bool
  deriving Repr, DecidableEq

/-- Observable outcome of one loop iteration: whether the loop proceeds to
another iteration, how many seconds it sleeps before doing so, and whether
an error was logged. -/
structure JobIterationResult where
  continues : Bool
  sleepSeconds : ℤ
  errorLogged : Bool
  deriving Repr, DecidableEq

/-- One iteration of `CronScheduler._job_wrapper`'s `while True` body
(cron_scheduler.py lines 59-141).  A raised exception (from the config
fetch or from the job callback) reaches the `except` handler: the error is
logged and the iteration ends with a fixed 60-second sleep.  When nothing
raises, the iteration sleeps the regular `minutes_interval * 60` seconds;
an orchestration failure (`start_measurement_by_config` returning `None`)
is logged via `logger.error("Scheduled measurement failed")` but does not
reach the handler. -/
def jobWrapperIteration (i : JobIterationInput) : JobIterationResult :=
  if i.fetchConfigRaises then ⟨true, 60, true⟩
  else if i.callbackRaises then ⟨true, 60, true⟩
  else ⟨true, i.minutesInterval * 60, !i.orchestrationSucceeds⟩

/-! ## Orchestrator: `MeasurementService` (measurement_service.py)

The stage functions talk to `AravisCameraService` and `GoogleDriveService`
and to the repositories.  Those collaborators are modelled by a `DeviceEnv`
record of outcomes: each Boolean says whether the corresponding external
primitive succeeds.  Measurement ids and timestamp-derived file names do
not influence any control flow, so artifact rows are identified by the
stage (and sensor index) that produced them. -/

/-- Outcomes of the external capture/upload primitives for one run. -/
structure DeviceEnv where
  rgbConnect : Bool
  rgbCapture : Bool
  rgbUpload : Bool
  msConnect : Bool
  msCapture : Bool
  msUpload : Bool
  driveAuth : Bool
  folderOk : Bool
  aeMockExists : Bool
  aeUpload : ℕ → Bool
  saveMeasurementOk : Bool

/-- Status field of the result dict returned by each stage function. -/
inductive StageStatus
  | success
  | error
  deriving Repr, DecidableEq

/-- The `{"status": ..., "message": ...}` dict returned by each stage
function (artifact ids are carried separately). -/
structure StageResult where
  status : StageStatus
  message : String
  deriving Repr, DecidableEq

/-- One persisted `MeasurementFileOrm` row, identified by the stage that
saved it. -/
inductive Artifact
  | rgb
  | multispectral
  | acoustic (sensor : ℕ)
  deriving Repr, DecidableEq

/-- Which stage a result came from, for relating results to enabled
stages. -/
inductive StageKind
  | rgb
  | multispectral
  | acoustic
  deriving Repr, DecidableEq

/-- Model of `MeasurementService.start_rgb_measurement` (measurement_service.py
lines 102-176): connect to the RGB camera, capture a blob, authenticate
with Google Drive, create the folder, upload, and persist a
`MeasurementFileOrm` row.  Each failure returns an error dict and uploads
nothing; only the full success path persists the artifact. -/
def start_rgb_measurement (env : DeviceEnv) : StageResult × List Artifact :=
  if env.rgbConnect = false then
    (⟨.error, "Failed to connect to RGB camera"⟩, [])
  else if env.rgbCapture = false then
    (⟨.error, "Failed to capture image from RGB camera"⟩, [])
  else if env.driveAuth = false then
    (⟨.error, "Failed to authenticate with Google Drive"⟩, [])
  else if env.folderOk = false then
    (⟨.error, "Failed to create folder in Google Drive"⟩, [])
  else if env.rgbUpload = false then
    (⟨.error, "Failed to upload image to Google Drive"⟩, [])
  else
    (⟨.success, "RGB measurement completed successfully"⟩, [.rgb])

/-- Model of `MeasurementService.start_multispectral_measurement`
(measurement_service.py lines 178-251), same shape as the RGB stage. -/
def start_multispectral_measurement (env : DeviceEnv) : StageResult × List Artifact :=
  if env.msConnect = false then
    (⟨.error, "Failed to connect to multispectral camera"⟩, [])
  else if env.msCapture = false then
    (⟨.error, "Failed to capture image from multispectral camera"⟩, [])
  else if env.driveAuth = false then
    (⟨.error, "Failed to authenticate with Google Drive"⟩, [])
  else if env.folderOk = false then
    (⟨.error, "Failed to create folder in Google Drive"⟩, [])
  else if env.msUpload = false then
    (⟨.error, "Failed to upload image to Google Drive"⟩, [])
  else
    (⟨.success, "Multispectral measurement completed successfully"⟩, [.multispectral])

/-- The `for sensor_id in range(1, number_of_sensors + 1)` loop of
`MeasurementService.capture_acoustic_data` (measurement_service.py lines
286-323).  `sensor` is the current sensor index, `remaining` how many
sensors are left.  Per iteration: check the mock data file exists, upload
the sensor's artifact, persist the file row.  A missing mock file or a
failed upload makes the whole function `return` an error dict immediately
— rows persisted by earlier iterations stay persisted. -/
def acousticSensorLoop (env : DeviceEnv) (n : ℕ) :
    (sensor : ℕ) → (remaining : ℕ) → StageResult × List Artifact
  | _, 0 =>
    (⟨.success, "Acoustic data captured for " ++ toString n ++ " sensors"⟩, [])
  | sensor, remaining + 1 =>
    if env.aeMockExists = false then
      (⟨.error, "Mock data file not found: ae/ae.mock.txt"⟩, [])
    else if env.aeUpload sensor = false then
      (⟨.error, "Failed to upload acoustic data for sensor " ++ toString sensor⟩, [])
    else
      let rest := acousticSensorLoop env n (sensor + 1) remaining
      (rest.1, .acoustic sensor :: rest.2)

/-- Model of `MeasurementService.capture_acoustic_data` (measurement_service.py
lines 253-329): authenticate, create the folder, then run the per-sensor
loop for sensors `1 .. number_of_sensors`.  `number_of_sensors` is a Python
int; `range(1, n + 1)` is empty for `n ≤ 0`. -/
def capture_acoustic_data (env : DeviceEnv) (number_of_sensors : ℤ) :
    StageResult × List Artifact :=
  if env.driveAuth = false then
    (⟨.error, "Failed to authenticate with Google Drive"⟩, [])
  else if env.folderOk = false then
    (⟨.error, "Failed to create folder in Google Drive"⟩, [])
  else
    acousticSensorLoop env number_of_sensors.toNat 1 number_of_sensors.toNat

/-- Schema `MeasurementConfigSchema` (models/measurement.py lines 44-55). -/
structure MeasurementConfigSchema where
  measurement_frequency : ℤ
  first_measurement : ℚ
  rgb_camera : Bool
  multispectral_camera : Bool
  number_of_sensors : ℤ
  length_of_ae : ℚ
  deriving Repr, DecidableEq

/-- Schema `MeasurementConfigCreateSchema` (models/measurement.py lines 58-65),
the body of the manual `/measurements/start` endpoint. -/
structure MeasurementConfigCreateSchema where
  rgb_camera : Bool
  multispectral_camera : Bool
  number_of_sensors : ℤ
  length_of_ae : ℚ
  deriving Repr, DecidableEq

/-- One persisted `MeasurementInfoOrm` row (models/measurement.py lines
13-27): the toggle snapshot and the scheduled flag (id and timestamp
elided). -/
structure RunRecord where
  rgb_camera : Bool
  multispectral_camera : Bool
  number_of_sensors : ℤ
  length_of_ae : ℚ
  scheduled : Bool
  deriving Repr, DecidableEq

/-- Model of `MeasurementService.start_measurement_by_config` (measurement_service.py
lines 331-394).  Persists a new measurement row with `scheduled=True`
(hard-coded at line 349), then runs each enabled stage in order — RGB
camera, multispectral camera, acoustic sensors — collecting the result
dicts; failed components are only logged.  The whole call returns `None`
exactly when an exception escapes, which only the measurement-row save can
cause (every stage catches its own exceptions).  Returns the persisted run
row, the per-stage result dicts tagged by stage, and the artifact rows
persisted by the stages. -/
def start_measurement_by_config (env : DeviceEnv) (config : MeasurementConfigSchema) :
    Option (RunRecord × List (StageKind × StageResult) × List Artifact) :=
  if env.saveMeasurementOk = false then none
  else
    let measurement : RunRecord :=
      { rgb_camera := config.rgb_camera
        multispectral_camera := config.multispectral_camera
        number_of_sensors := config.number_of_sensors
        length_of_ae := config.length_of_ae
        scheduled := true }
    let rgb : Option (StageResult × List Artifact) :=
      if config.rgb_camera then some (start_rgb_measurement env) else none
    let ms : Option (StageResult × List Artifact) :=
      if config.multispectral_camera then some (start_multispectral_measurement env) else none
    let ae : Option (StageResult × List Artifact) :=
      if 0 < config.number_of_sensors ∧ 0 < config.length_of_ae then
        some (capture_acoustic_data env config.number_of_sensors)
      else none
    let results : List (StageKind × StageResult) :=
      (match rgb with | none => [] | some p => [(StageKind.rgb, p.1)]) ++
      (match ms with | none => [] | some p => [(StageKind.multispectral, p.1)]) ++
      (match ae with | none => [] | some p => [(StageKind.acoustic, p.1)])
    let artifacts : List Artifact :=
      (match rgb with | none => [] | some p => p.2) ++
      (match ms with | none => [] | some p => p.2) ++
      (match ae with | none => [] | some p => p.2)
    some (measurement, results, artifacts)

/-- The stage kinds enabled by a configuration, in the fixed order the
orchestrator attempts them. -/
def enabledStageKinds (config : MeasurementConfigSchema) : List StageKind :=
  (if config.rgb_camera then [StageKind.rgb] else []) ++
  (if config.multispectral_camera then [StageKind.multispectral] else []) ++
  (if 0 < config.number_of_sensors ∧ 0 < config.length_of_ae then [StageKind.acoustic] else [])

/-- An RGB-camera stage failure at connect, capture, or upload (including
the drive authentication and folder steps of the upload). -/
def rgbStageFails (env : DeviceEnv) : Prop :=
  env.rgbConnect = false ∨ env.rgbCapture = false ∨ env.driveAuth = false ∨
    env.folderOk = false ∨ env.rgbUpload = false

/-- A multispectral-camera stage failure at connect, capture, or upload. -/
def msStageFails (env : DeviceEnv) : Prop :=
  env.msConnect = false ∨ env.msCapture = false ∨ env.driveAuth = false ∨
    env.folderOk = false ∨ env.msUpload = false

/-! ## Controller: `MeasurementController.start_measurement_logic`
(measurement_controller.py lines 352-445) and the loop's run bookkeeping -/

/-- The `Union[MeasurementConfigSchema, MeasurementConfigCreateSchema]`
argument of `start_measurement_logic`. -/
inductive ConfigArg
  | full (c : MeasurementConfigSchema)
  | create (c : MeasurementConfigCreateSchema)
  deriving Repr, DecidableEq

/-- Model of `MeasurementController.start_measurement_logic(scheduled, config)`
(measurement_controller.py lines 352-445), tracking the measurement rows it
persists.  With `config=None` it fetches the stored configuration when
`scheduled`, else raises (modelled as `none`).  It persists one row with
the given `scheduled` flag; then, when the configuration is a full
`MeasurementConfigSchema`, it additionally calls
`start_measurement_by_config`, which persists a second row of its own.
With a `MeasurementConfigCreateSchema` it takes the legacy branch, which
invokes the camera stages directly against the already-saved row and
persists no further measurement row.  Raising (a failed save) is modelled
as `none`. -/
def start_measurement_logic (env : DeviceEnv) (scheduled : Bool)
    (config : Option ConfigArg) (stored : MeasurementConfigSchema) :
    Option (List RunRecord) :=
  let cfg : Option ConfigArg :=
    match config with
    | some c => some c
    | none => if scheduled then some (.full stored) else none
  match cfg with
  | none => none
  | some c =>
    if env.saveMeasurementOk = false then none
    else
      let saved : RunRecord :=
        match c with
        | .full f =>
          { rgb_camera := f.rgb_camera, multispectral_camera := f.multispectral_camera
            number_of_sensors := f.number_of_sensors, length_of_ae := f.length_of_ae
            scheduled := scheduled }
        | .create cr =>
          { rgb_camera := cr.rgb_camera, multispectral_camera := cr.multispectral_camera
            number_of_sensors := cr.number_of_sensors, length_of_ae := cr.length_of_ae
            scheduled := scheduled }
      match c with
      | .full f =>
        match start_measurement_by_config env f with
        | some (r, _, _) => some [saved, r]
        | none => some [saved]
      | .create _ => some [saved]

/-- The measurement rows persisted by one fire of the recurring loop body
(cron_scheduler.py lines 92-116), with the job callback registered to
`MeasurementController.start_measurement_logic` as done in
`MeasurementController.__init__` (measurement_controller.py line 77): the
body first calls `start_measurement_by_config` on the fetched configuration
directly, then invokes the callback with `scheduled=True` and no explicit
config. -/
def jobWrapperFireRuns (env : DeviceEnv) (stored : MeasurementConfigSchema) :
    List RunRecord :=
  (match start_measurement_by_config env stored with
   | some (r, _, _) => [r]
   | none => []) ++
  (match start_measurement_logic env true none stored with
   | some rs => rs
   | none => [])

/-! ## Repository: `SettingsRepository.update_measurement_config`
(settings_repository.py lines 61-104) -/

/-- One `MeasurementConfigOrm` row (models/measurement.py lines 30-41) with
its primary-key id. -/
structure MeasurementConfigRow where
  id : ℕ
  measurement_frequency : ℤ
  first_measurement : ℚ
  rgb_camera : Bool
  multispectral_camera : Bool
  number_of_sensors : ℤ
  length_of_ae : ℚ
  deriving Repr, DecidableEq

/-- The `measurement_config` table: its rows and the next auto-increment
primary key. -/
structure ConfigTable where
  rows : List MeasurementConfigRow
  nextId : ℕ
  deriving Repr, DecidableEq

/-- Query `select(...).order_by(MeasurementConfigOrm.id.desc()).limit(1)`: the
stored row with the largest id, if any. -/
def latestConfig : List MeasurementConfigRow → Option MeasurementConfigRow
  | [] => none
  | r :: rs =>
    match latestConfig rs with
    | none => some r
    | some r' => some (if r'.id ≤ r.id then r else r')

/-- Model of `SettingsRepository.update_measurement_config` (settings_repository.py
lines 61-104).  When the table is empty it inserts a new row (fresh id);
otherwise it overwrites the fields of the latest existing row in place and
returns that row — with its id unchanged. -/
def update_measurement_config (table : ConfigTable) (config : MeasurementConfigSchema) :
    ConfigTable × MeasurementConfigRow :=
  match latestConfig table.rows with
  | none =>
    let row : MeasurementConfigRow :=
      { id := table.nextId
        measurement_frequency := config.measurement_frequency
        first_measurement := config.first_measurement
        rgb_camera := config.rgb_camera
        multispectral_camera := config.multispectral_camera
        number_of_sensors := config.number_of_sensors
        length_of_ae := config.length_of_ae }
    ({ rows := table.rows ++ [row], nextId := table.nextId + 1 }, row)
  | some r =>
    let updated : MeasurementConfigRow :=
      { id := r.id
        measurement_frequency := config.measurement_frequency
        first_measurement := config.first_measurement
        rgb_camera := config.rgb_camera
        multispectral_camera := config.multispectral_camera
        number_of_sensors := config.number_of_sensors
        length_of_ae := config.length_of_ae }
    ({ rows := table.rows.map fun x => if x.id = r.id then updated else x
       nextId := table.nextId }, updated)

/-! ## Theorems -/

/-- Helper: the concrete ceiling-alignment scenario of the spec,
`frequency = 60` minutes and `first_run = now - 200` minutes (with the
epoch placed at `first_run`): the loop is armed 240 minutes after
`first_run`, i.e. at `first_run + 4 * 60`. -/
theorem adjustStartTime_60_200 : adjustStartTime 60 200 0 = 0 + 4 * 60 := by
  have h : ⌊(200 : ℚ) / 60⌋ = 3 := by
    rw [Int.floor_eq_iff]
    norm_num
  norm_num [adjustStartTime, h]

/-- C1 (confirmed): for every frequency `f > 0` and every `first_run`
strictly earlier than `now` (and a call that is not deduplicated away),
`set_new_schedule` stores as next-fire time the ceiling alignment
`adjustStartTime f now start`, which is strictly greater than `now` and
equal to `start + k * f` for the smallest non-negative integer `k`
satisfying that strict inequality. -/
theorem set_new_schedule_ceiling_alignment
    (s : SchedulerState) (f : ℤ) (start now : ℚ) (cid : Option ℤ)
    (hf : 0 < f) (hpast : start < now)
    (hc : cid = none ∨ cid ≠ s.configId) :
    (set_new_schedule s f (some start) cid now).1.nextScheduledDate
        = some (adjustStartTime f now start) ∧
    now < adjustStartTime f now start ∧
    ∃ k : ℕ, adjustStartTime f now start = start + (k : ℚ) * (f : ℚ) ∧
      ∀ j : ℕ, now < start + (j : ℚ) * (f : ℚ) → k ≤ j := by
  have hfq : (0 : ℚ) < (f : ℚ) := by exact_mod_cast hf
  have hd : (0 : ℚ) < now - start := by linarith
  set m : ℤ := ⌊(now - start) / (f : ℚ)⌋ with hm
  have hm0 : 0 ≤ m := Int.floor_nonneg.mpr (by positivity)
  have hadj : adjustStartTime f now start = start + ((m + 1 : ℤ) : ℚ) * (f : ℚ) := by
    rw [adjustStartTime, if_pos hpast]
  have hlt : now < adjustStartTime f now start := by
    rw [hadj]
    have h1 : (now - start) / (f : ℚ) < ((m + 1 : ℤ) : ℚ) := by
      push_cast
      exact Int.lt_floor_add_one _
    have h2 : now - start < ((m + 1 : ℤ) : ℚ) * (f : ℚ) := (div_lt_iff₀ hfq).mp h1
    linarith
  refine ⟨?_, hlt, (m + 1).toNat, ?_, ?_⟩
  · have hcond : ¬(cid ≠ none ∧ cid = s.configId) := by
      rcases hc with h | h
      · subst h
        simp
      · intro hh
        exact h hh.2
    rw [set_new_schedule.eq_def, if_neg hcond]
    rcases cid with _ | c <;> simp [show ¬f ≤ 0 by omega]
  · rw [hadj]
    have hcast : (((m + 1).toNat : ℕ) : ℚ) = ((m + 1 : ℤ) : ℚ) := by
      have h := Int.toNat_of_nonneg (show (0 : ℤ) ≤ m + 1 by omega)
      exact_mod_cast congrArg (fun z : ℤ => (z : ℚ)) h
    rw [hcast]
  · intro j hj
    have h1 : now - start < (j : ℚ) * (f : ℚ) := by linarith
    have h2 : (now - start) / (f : ℚ) < (j : ℚ) := (div_lt_iff₀ hfq).mpr h1
    have h3 : m < (j : ℤ) := by
      rw [hm]
      apply Int.floor_lt.mpr
      exact_mod_cast h2
    omega

/-- C1 witness: the spec's concrete scenario, `f = 60`,
`first_run = 0`, `now = 200` (so `first_run = now - 200` minutes): the
hypotheses hold, the theorem applies, and the next fire is
`first_run + 4 * 60`. -/
theorem set_new_schedule_ceiling_alignment_witness :
    ((0 : ℤ) < 60 ∧ (0 : ℚ) < 200 ∧
      ((none : Option ℤ) = none ∨ (none : Option ℤ) ≠ (SchedulerState.mk false 0 none none).configId)) ∧
    ((set_new_schedule (SchedulerState.mk false 0 none none) 60 (some 0) none 200).1.nextScheduledDate
        = some (adjustStartTime 60 200 0) ∧
      200 < adjustStartTime 60 200 0 ∧
      ∃ k : ℕ, adjustStartTime 60 200 0 = 0 + (k : ℚ) * ((60 : ℤ) : ℚ) ∧
        ∀ j : ℕ, 200 < 0 + (j : ℚ) * ((60 : ℤ) : ℚ) → k ≤ j) ∧
    adjustStartTime 60 200 0 = 0 + 4 * 60 :=
  ⟨⟨by norm_num, by norm_num, Or.inl rfl⟩,
    set_new_schedule_ceiling_alignment (SchedulerState.mk false 0 none none)
      60 0 200 none (by norm_num) (by norm_num) (Or.inl rfl),
    adjustStartTime_60_200⟩

/-- Helper: a call whose non-null `config_id` matches the stored one hits
the deduplication return at the top of `set_new_schedule`. -/
theorem set_new_schedule_matching_id_noop
    (s : SchedulerState) (f : ℤ) (t : Option ℚ) (c : ℤ) (now : ℚ)
    (h : s.configId = some c) :
    set_new_schedule s f t (some c) now = (s, ⟨false, false⟩) := by
  rw [set_new_schedule.eq_def, if_pos]
  exact ⟨by simp, h.symm⟩

/-- C2 (confirmed): when a non-null `config_id` equal to the currently
stored one is passed, `set_new_schedule` is a no-op: the state (active
flag, next-fire time, frequency, config identity) is returned unchanged,
no existing task is cancelled, and no new task is created — regardless of
the frequency and start time passed. -/
theorem set_new_schedule_idempotent
    (s : SchedulerState) (f : ℤ) (t : Option ℚ) (c : ℤ) (now : ℚ)
    (h : s.configId = some c) :
    set_new_schedule s f t (some c) now = (s, ⟨false, false⟩) :=
  set_new_schedule_matching_id_noop s f t c now h

/-- C2 witness: a scheduler armed with config id 7 at interval 30, asked to
reschedule with config id 7 again, is left untouched. -/
theorem set_new_schedule_idempotent_witness :
    (SchedulerState.mk true 30 (some 100) (some 7)).configId = some 7 ∧
    set_new_schedule (SchedulerState.mk true 30 (some 100) (some 7)) 45 (some 5) (some 7) 0
      = (SchedulerState.mk true 30 (some 100) (some 7), ⟨false, false⟩) :=
  ⟨rfl,
    set_new_schedule_idempotent (SchedulerState.mk true 30 (some 100) (some 7)) 45 (some 5) 7 0 rfl⟩

/-- C6 counterexample: the claim quantifies over every prior scheduler
state, but when the prior state already stores the config id being passed,
the deduplication check at the top of `set_new_schedule` returns before
the `minutes_interval <= 0` branch is reached: with an armed timer and
config id 1, the call `set_new_schedule(-1, None, 1)` leaves the timer
armed and the next-fire time set. -/
theorem disarm_nonpositive_cex :
    (set_new_schedule (SchedulerState.mk true 30 (some 100) (some 1)) (-1) none (some 1) 0).1.taskActive
        = true ∧
    (set_new_schedule (SchedulerState.mk true 30 (some 100) (some 1)) (-1) none (some 1) 0).1.nextScheduledDate
        ≠ none :=
  ⟨rfl, by simp [set_new_schedule]⟩

/-- C6 (amended): for every frequency `f ≤ 0`, provided the call's
`config_id` is null or differs from the currently stored one (so the
deduplication no-op does not trigger), after `set_new_schedule` the
scheduler is inactive — a previously armed task is cancelled, no new task
is created — and the next-fire time is null. -/
theorem disarm_nonpositive
    (s : SchedulerState) (f : ℤ) (t : Option ℚ) (c : Option ℤ) (now : ℚ)
    (hf : f ≤ 0) (hc : c = none ∨ c ≠ s.configId) :
    (set_new_schedule s f t c now).1.taskActive = false ∧
    (set_new_schedule s f t c now).1.nextScheduledDate = none ∧
    (set_new_schedule s f t c now).2.createdTask = false ∧
    (set_new_schedule s f t c now).2.cancelledExisting = s.taskActive := by
  have hcond : ¬(c ≠ none ∧ c = s.configId) := by
    rcases hc with h | h
    · subst h
      simp
    · intro hh
      exact h hh.2
  rw [set_new_schedule.eq_def, if_neg hcond]
  rcases c with _ | c <;> simp [hf]

/-- C6 witness: disarming an armed scheduler (interval 30, config id 1)
with frequency 0 and a fresh config id 2. -/
theorem disarm_nonpositive_witness :
    ((0 : ℤ) ≤ 0 ∧
      ((some 2 : Option ℤ) = none ∨
        (some 2 : Option ℤ) ≠ (SchedulerState.mk true 30 (some 100) (some 1)).configId)) ∧
    ((set_new_schedule (SchedulerState.mk true 30 (some 100) (some 1)) 0 none (some 2) 0).1.taskActive = false ∧
      (set_new_schedule (SchedulerState.mk true 30 (some 100) (some 1)) 0 none (some 2) 0).1.nextScheduledDate = none ∧
      (set_new_schedule (SchedulerState.mk true 30 (some 100) (some 1)) 0 none (some 2) 0).2.createdTask = false ∧
      (set_new_schedule (SchedulerState.mk true 30 (some 100) (some 1)) 0 none (some 2) 0).2.cancelledExisting
        = (SchedulerState.mk true 30 (some 100) (some 1)).taskActive) :=
  ⟨⟨le_refl 0, Or.inr (by decide)⟩,
    disarm_nonpositive (SchedulerState.mk true 30 (some 100) (some 1)) 0 none (some 2) 0
      (le_refl 0) (Or.inr (by decide))⟩

/-- C10 (confirmed): a call with a non-positive frequency records the
passed `config_id` before the frequency check, so after
`set_new_schedule(f0, _, c)` with `f0 ≤ 0` (and `c` not already stored)
the scheduler stores `c` while idle with no next-fire time; every
subsequent `set_new_schedule(f, t, c)` with the same `c` — even with a
valid frequency `f > 0` — is deduplicated away: the state is unchanged and
no task is ever created. -/
theorem config_id_recorded_before_frequency_check
    (s : SchedulerState) (f0 f : ℤ) (t0 t : Option ℚ) (c : ℤ) (now0 now : ℚ)
    (hf0 : f0 ≤ 0) (hf : 0 < f) (hc : s.configId ≠ some c) :
    (set_new_schedule s f0 t0 (some c) now0).1.configId = some c ∧
    (set_new_schedule s f0 t0 (some c) now0).1.taskActive = false ∧
    (set_new_schedule s f0 t0 (some c) now0).1.nextScheduledDate = none ∧
    set_new_schedule (set_new_schedule s f0 t0 (some c) now0).1 f t (some c) now
      = ((set_new_schedule s f0 t0 (some c) now0).1, ⟨false, false⟩) := by
  have hcond : ¬((some c : Option ℤ) ≠ none ∧ (some c : Option ℤ) = s.configId) := by
    intro hh
    exact hc hh.2.symm
  have h1 : (set_new_schedule s f0 t0 (some c) now0).1
      = { s with configId := some c, taskActive := false, nextScheduledDate := none } := by
    rw [set_new_schedule.eq_def, if_neg hcond]
    simp [hf0]
  refine ⟨by rw [h1], by rw [h1], by rw [h1], ?_⟩
  exact set_new_schedule_matching_id_noop _ f t c now (by rw [h1])

/-- C10 witness: arming config id 3 with frequency 0 from the initial
state, then retrying with frequency 60, leaves the scheduler idle. -/
theorem config_id_recorded_before_frequency_check_witness :
    ((0 : ℤ) ≤ 0 ∧ (0 : ℤ) < 60 ∧
      (SchedulerState.mk false 0 none none).configId ≠ some 3) ∧
    ((set_new_schedule (SchedulerState.mk false 0 none none) 0 none (some 3) 0).1.configId = some 3 ∧
      (set_new_schedule (SchedulerState.mk false 0 none none) 0 none (some 3) 0).1.taskActive = false ∧
      (set_new_schedule (SchedulerState.mk false 0 none none) 0 none (some 3) 0).1.nextScheduledDate = none ∧
      set_new_schedule (set_new_schedule (SchedulerState.mk false 0 none none) 0 none (some 3) 0).1
          60 (some 500) (some 3) 400
        = ((set_new_schedule (SchedulerState.mk false 0 none none) 0 none (some 3) 0).1, ⟨false, false⟩)) :=
  ⟨⟨le_refl 0, by norm_num, by decide⟩,
    config_id_recorded_before_frequency_check (SchedulerState.mk false 0 none none)
      0 60 none (some 500) 3 0 400 (le_refl 0) (by norm_num) (by decide)⟩

/-- C7 counterexample: an iteration at interval 60 minutes in which
nothing raises but the orchestration returns an error result (`None`):
the error is logged and the loop continues, but it sleeps the regular
`60 * 60 = 3600` seconds, not the fixed 60-second backoff the claim
asserts for this case. -/
theorem loop_backoff_cex :
    (jobWrapperIteration ⟨60, false, false, false⟩).errorLogged = true ∧
    (jobWrapperIteration ⟨60, false, false, false⟩).continues = true ∧
    (jobWrapperIteration ⟨60, false, false, false⟩).sleepSeconds = 3600 ∧
    (jobWrapperIteration ⟨60, false, false, false⟩).sleepSeconds ≠ 60 := by
  refine ⟨rfl, rfl, rfl, ?_⟩
  decide

/-- C7 (amended): every iteration of the recurring loop continues — a
transient failure never terminates it.  When the loop body raises (the
configuration fetch or the registered callback), the error is logged and
the loop waits the fixed 60-second backoff before continuing.  When
nothing raises but the orchestration returns an error result (`None`), the
error is logged but the loop proceeds with the regular
`minutes_interval * 60`-second wait, not the 60-second backoff. -/
theorem loop_survives_transient_failure (i : JobIterationInput) :
    (jobWrapperIteration i).continues = true ∧
    ((i.fetchConfigRaises = true ∨ i.callbackRaises = true) →
      (jobWrapperIteration i).sleepSeconds = 60 ∧
      (jobWrapperIteration i).errorLogged = true) ∧
    (i.fetchConfigRaises = false → i.callbackRaises = false →
      i.orchestrationSucceeds = false →
      (jobWrapperIteration i).errorLogged = true ∧
      (jobWrapperIteration i).sleepSeconds = i.minutesInterval * 60) := by
  rcases i with ⟨m, fetch, orch, cb⟩
  cases fetch <;> cases orch <;> cases cb <;> simp [jobWrapperIteration]

/-- C7 witness: at interval 60, an iteration whose callback raises
continues after a 60-second backoff with the error logged, and an
iteration whose orchestration returns an error result continues with the
error logged. -/
theorem loop_survives_transient_failure_witness :
    (jobWrapperIteration ⟨60, false, true, true⟩).continues = true ∧
    ((jobWrapperIteration ⟨60, false, true, true⟩).sleepSeconds = 60 ∧
      (jobWrapperIteration ⟨60, false, true, true⟩).errorLogged = true) ∧
    ((jobWrapperIteration ⟨60, false, false, false⟩).errorLogged = true ∧
      (jobWrapperIteration ⟨60, false, false, false⟩).sleepSeconds = 60 * 60) :=
  ⟨(loop_survives_transient_failure ⟨60, false, true, true⟩).1,
    (loop_survives_transient_failure ⟨60, false, true, true⟩).2.1 (Or.inr rfl),
    (loop_survives_transient_failure ⟨60, false, false, false⟩).2.2 rfl rfl rfl⟩

/-- C8 counterexample: a table holding one configuration row with id 7;
an accepted update returns a row whose id is still 7, the identity of the
previously stored configuration — not a distinct one. -/
theorem update_config_identity_cex :
    (latestConfig [MeasurementConfigRow.mk 7 60 0 true false 1 10]).map MeasurementConfigRow.id
        = some 7 ∧
    (update_measurement_config ⟨[MeasurementConfigRow.mk 7 60 0 true false 1 10], 8⟩
        ⟨30, 5, false, true, 2, 3⟩).2.id = 7 :=
  ⟨rfl, rfl⟩

/-- C8 (amended): an accepted configuration update preserves the stored
identity whenever a configuration already exists — the returned row has
the same id as the previously stored (latest) row, because
`update_measurement_config` overwrites that row's fields in place; a fresh
identity is produced only when no configuration row exists at all.
Identity comparison therefore does not detect a changed configuration
across updates. -/
theorem update_config_preserves_identity
    (table : ConfigTable) (config : MeasurementConfigSchema)
    (r : MeasurementConfigRow) (h : latestConfig table.rows = some r) :
    (update_measurement_config table config).2.id = r.id ∧
    (update_measurement_config table config).1.nextId = table.nextId := by
  rw [update_measurement_config, h]
  exact ⟨rfl, rfl⟩

/-- C8 witness: updating the single stored row (id 7) returns id 7 and
allocates no fresh id. -/
theorem update_config_preserves_identity_witness :
    latestConfig (ConfigTable.mk [MeasurementConfigRow.mk 7 60 0 true false 1 10] 8).rows
        = some (MeasurementConfigRow.mk 7 60 0 true false 1 10) ∧
    ((update_measurement_config ⟨[MeasurementConfigRow.mk 7 60 0 true false 1 10], 8⟩
        ⟨30, 5, false, true, 2, 3⟩).2.id = (MeasurementConfigRow.mk 7 60 0 true false 1 10).id ∧
      (update_measurement_config ⟨[MeasurementConfigRow.mk 7 60 0 true false 1 10], 8⟩
        ⟨30, 5, false, true, 2, 3⟩).1.nextId
        = (ConfigTable.mk [MeasurementConfigRow.mk 7 60 0 true false 1 10] 8).nextId) :=
  ⟨rfl,
    update_config_preserves_identity ⟨[MeasurementConfigRow.mk 7 60 0 true false 1 10], 8⟩
      ⟨30, 5, false, true, 2, 3⟩ (MeasurementConfigRow.mk 7 60 0 true false 1 10) rfl⟩

/-- Helper: any RGB-camera stage failure (connect, capture, auth, folder,
or upload) makes `start_rgb_measurement` return an error dict with a
non-empty message and persist no artifact. -/
theorem start_rgb_measurement_error (env : DeviceEnv) (h : rgbStageFails env) :
    (start_rgb_measurement env).1.status = StageStatus.error ∧
    (start_rgb_measurement env).1.message ≠ "" := by
  rcases env with ⟨rc, rcap, ru, mc, mcap, mu, da, fo, am, au, so⟩
  simp only [rgbStageFails] at h
  cases rc <;> cases rcap <;> cases da <;> cases fo <;> cases ru <;>
    simp_all [start_rgb_measurement]

/-- Helper: any multispectral-camera stage failure makes
`start_multispectral_measurement` return an error dict with a non-empty
message. -/
theorem start_multispectral_measurement_error (env : DeviceEnv) (h : msStageFails env) :
    (start_multispectral_measurement env).1.status = StageStatus.error ∧
    (start_multispectral_measurement env).1.message ≠ "" := by
  rcases env with ⟨rc, rcap, ru, mc, mcap, mu, da, fo, am, au, so⟩
  simp only [msStageFails] at h
  cases mc <;> cases mcap <;> cases da <;> cases fo <;> cases mu <;>
    simp_all [start_multispectral_measurement]

/-- C3 (confirmed): with at least one camera stage enabled and the
measurement-row save succeeding, `start_measurement_by_config` returns a
persisted run no matter how the stages fare; the result list carries one
entry per enabled stage in the fixed order, and a camera stage that fails
at connect, capture, or upload contributes an error result with a
non-empty message rather than discarding the run. -/
theorem stage_failure_never_aborts_run
    (env : DeviceEnv) (config : MeasurementConfigSchema)
    (hsave : env.saveMeasurementOk = true)
    (hcam : config.rgb_camera = true ∨ config.multispectral_camera = true) :
    ∃ run results artifacts,
      start_measurement_by_config env config = some (run, results, artifacts) ∧
      results.map Prod.fst = enabledStageKinds config ∧
      (config.rgb_camera = true → rgbStageFails env →
        ∃ r, (StageKind.rgb, r) ∈ results ∧
          r.status = StageStatus.error ∧ r.message ≠ "") ∧
      (config.multispectral_camera = true → msStageFails env →
        ∃ r, (StageKind.multispectral, r) ∈ results ∧
          r.status = StageStatus.error ∧ r.message ≠ "") := by
  rw [start_measurement_by_config.eq_def, if_neg (by simp [hsave])]
  refine ⟨_, _, _, rfl, ?_, ?_, ?_⟩
  · rcases hrgb : config.rgb_camera <;> rcases hms : config.multispectral_camera <;>
      by_cases hae : 0 < config.number_of_sensors ∧ 0 < config.length_of_ae <;>
      simp [enabledStageKinds, hrgb, hms, hae]
  · intro hrgb hfail
    refine ⟨(start_rgb_measurement env).1, ?_,
      (start_rgb_measurement_error env hfail).1, (start_rgb_measurement_error env hfail).2⟩
    simp [hrgb]
  · intro hms hfail
    refine ⟨(start_multispectral_measurement env).1, ?_,
      (start_multispectral_measurement_error env hfail).1,
      (start_multispectral_measurement_error env hfail).2⟩
    rcases hrgb : config.rgb_camera <;> simp [hrgb, hms]

/-- C3 witness: both cameras enabled, the RGB camera failing to connect and
everything else succeeding: the run is persisted, both stages report, and
the RGB stage reports a described error. -/
theorem stage_failure_never_aborts_run_witness :
    ((DeviceEnv.mk false true true true true true true true true (fun _ => true) true).saveMeasurementOk = true ∧
      ((MeasurementConfigSchema.mk 60 0 true true 0 10).rgb_camera = true ∨
        (MeasurementConfigSchema.mk 60 0 true true 0 10).multispectral_camera = true)) ∧
    (∃ run results artifacts,
      start_measurement_by_config
          (DeviceEnv.mk false true true true true true true true true (fun _ => true) true)
          (MeasurementConfigSchema.mk 60 0 true true 0 10)
        = some (run, results, artifacts) ∧
      results.map Prod.fst = enabledStageKinds (MeasurementConfigSchema.mk 60 0 true true 0 10) ∧
      ((MeasurementConfigSchema.mk 60 0 true true 0 10).rgb_camera = true →
        rgbStageFails (DeviceEnv.mk false true true true true true true true true (fun _ => true) true) →
        ∃ r, (StageKind.rgb, r) ∈ results ∧
          r.status = StageStatus.error ∧ r.message ≠ "") ∧
      ((MeasurementConfigSchema.mk 60 0 true true 0 10).multispectral_camera = true →
        msStageFails (DeviceEnv.mk false true true true true true true true true (fun _ => true) true) →
        ∃ r, (StageKind.multispectral, r) ∈ results ∧
          r.status = StageStatus.error ∧ r.message ≠ "")) :=
  ⟨⟨rfl, Or.inl rfl⟩,
    stage_failure_never_aborts_run
      (DeviceEnv.mk false true true true true true true true true (fun _ => true) true)
      (MeasurementConfigSchema.mk 60 0 true true 0 10) rfl (Or.inl rfl)⟩

/-- C4 counterexample: three acoustic sensors with exactly sensor 2
failing its upload (everything else succeeding).  The claim says sensors
are processed independently and `N - 1 = 2` artifact references are
persisted; the loop in `capture_acoustic_data` instead returns on the
first failure, so only sensor 1's artifact (one reference, not two) is
persisted and sensor 3 is never attempted. -/
theorem acoustic_independence_cex :
    (capture_acoustic_data
        (DeviceEnv.mk true true true true true true true true true (fun s => s != 2) true) 3).1.status
      = StageStatus.error ∧
    (capture_acoustic_data
        (DeviceEnv.mk true true true true true true true true true (fun s => s != 2) true) 3).2
      = [Artifact.acoustic 1] ∧
    (capture_acoustic_data
        (DeviceEnv.mk true true true true true true true true true (fun s => s != 2) true) 3).2.length
      ≠ 3 - 1 :=
  ⟨rfl, rfl, by decide⟩

/-- Helper: the per-sensor loop with the mock file present, upload
succeeding for every sensor before `j` and failing at `j` (with `j` inside
the range), reports an error and keeps exactly the artifacts of sensors
`sensor .. j - 1`. -/
theorem acousticSensorLoop_first_failure (env : DeviceEnv) (n : ℕ)
    (hmock : env.aeMockExists = true) :
    ∀ remaining sensor j : ℕ, sensor ≤ j → j < sensor + remaining →
      env.aeUpload j = false →
      (∀ s, sensor ≤ s → s < j → env.aeUpload s = true) →
      (acousticSensorLoop env n sensor remaining).1.status = StageStatus.error ∧
      (acousticSensorLoop env n sensor remaining).2.length = j - sensor := by
  intro remaining
  induction remaining with
  | zero =>
    intro sensor j h1 h2 _ _
    omega
  | succ r ih =>
    intro sensor j h1 h2 hfail hok
    rcases eq_or_lt_of_le h1 with rfl | hlt
    · simp [acousticSensorLoop, hmock, hfail]
    · have hup : env.aeUpload sensor = true := hok sensor le_rfl hlt
      have hrest := ih (sensor + 1) j hlt (by omega) hfail
        (fun s hs1 hs2 => hok s (by omega) hs2)
      simp only [acousticSensorLoop, hmock, hup]
      simp only [Bool.true_eq_false, if_false]
      constructor
      · exact hrest.1
      · simp only [List.length_cons, hrest.2]
        omega

/-- C4 (amended): the acoustic stage aborts at the first failing sensor
rather than processing sensors independently: when sensor `j` is the first
to fail its upload (all sensors before it succeed, the mock data file,
drive authentication and folder creation succeed), the stage reports
status error, exactly `j - 1` artifact references are persisted — the
later sensors are never attempted — and the parent run is still persisted
by `start_measurement_by_config`.  In the claim's scenario (sensor 2 of
`N ≥ 2` failing) exactly 1 artifact is persisted, which equals `N - 1`
only for `N = 2`. -/
theorem acoustic_stage_aborts_at_first_failure
    (env : DeviceEnv) (config : MeasurementConfigSchema) (j : ℕ)
    (hsave : env.saveMeasurementOk = true)
    (hauth : env.driveAuth = true) (hfolder : env.folderOk = true)
    (hmock : env.aeMockExists = true)
    (hj1 : 1 ≤ j) (hjn : (j : ℤ) ≤ config.number_of_sensors)
    (hfail : env.aeUpload j = false)
    (hok : ∀ s, 1 ≤ s → s < j → env.aeUpload s = true) :
    (capture_acoustic_data env config.number_of_sensors).1.status = StageStatus.error ∧
    (capture_acoustic_data env config.number_of_sensors).2.length = j - 1 ∧
    (start_measurement_by_config env config).isSome = true := by
  have hrange : j < 1 + config.number_of_sensors.toNat := by omega
  have hloop := acousticSensorLoop_first_failure env config.number_of_sensors.toNat hmock
    config.number_of_sensors.toNat 1 j hj1 hrange hfail
    (fun s hs1 hs2 => hok s hs1 hs2)
  refine ⟨?_, ?_, ?_⟩
  · simpa [capture_acoustic_data, hauth, hfolder] using hloop.1
  · simpa [capture_acoustic_data, hauth, hfolder] using hloop.2
  · rw [start_measurement_by_config.eq_def, if_neg (by simp [hsave])]
    rfl

/-- C4 witness: the amended behaviour at `N = 3` with sensor 2 failing:
error status, one persisted artifact, run persisted. -/
theorem acoustic_stage_aborts_at_first_failure_witness :
    ((DeviceEnv.mk true true true true true true true true true (fun s => s != 2) true).aeUpload 2 = false ∧
      (2 : ℤ) ≤ (MeasurementConfigSchema.mk 60 0 false false 3 10).number_of_sensors) ∧
    ((capture_acoustic_data
        (DeviceEnv.mk true true true true true true true true true (fun s => s != 2) true)
        (MeasurementConfigSchema.mk 60 0 false false 3 10).number_of_sensors).1.status
      = StageStatus.error ∧
    (capture_acoustic_data
        (DeviceEnv.mk true true true true true true true true true (fun s => s != 2) true)
        (MeasurementConfigSchema.mk 60 0 false false 3 10).number_of_sensors).2.length = 2 - 1 ∧
    (start_measurement_by_config
        (DeviceEnv.mk true true true true true true true true true (fun s => s != 2) true)
        (MeasurementConfigSchema.mk 60 0 false false 3 10)).isSome = true) :=
  ⟨⟨rfl, by norm_num⟩,
    acoustic_stage_aborts_at_first_failure
      (DeviceEnv.mk true true true true true true true true true (fun s => s != 2) true)
      (MeasurementConfigSchema.mk 60 0 false false 3 10) 2 rfl rfl rfl rfl
      (by norm_num) (by norm_num) rfl
      (by
        intro s h1 h2
        have hs : s = 1 := by omega
        subst hs
        rfl)⟩

/-- C5 (confirmed): a manual trigger through the `/measurements/start`
endpoint calls `start_measurement_logic` with `scheduled=False` and the
caller-supplied `MeasurementConfigCreateSchema`; every measurement row it
persists carries `scheduled = false`.  Every row persisted by a scheduled
fire of the recurring loop — both the row saved directly by
`start_measurement_by_config` and those saved through the registered
callback — carries `scheduled = true`. -/
theorem manual_trigger_scheduled_flag
    (env : DeviceEnv) (stored : MeasurementConfigSchema)
    (c : MeasurementConfigCreateSchema) (hsave : env.saveMeasurementOk = true) :
    (∃ runs, start_measurement_logic env false (some (.create c)) stored = some runs ∧
      runs ≠ [] ∧ ∀ r ∈ runs, r.scheduled = false) ∧
    (∀ r ∈ jobWrapperFireRuns env stored, r.scheduled = true) := by
  rcases env with ⟨rc, rcap, ru, mc, mcap, mu, da, fo, am, au, so⟩
  cases so
  · exact absurd hsave (by simp)
  constructor
  · refine ⟨_, rfl, by simp, ?_⟩
    intro r hr
    simp only [List.mem_singleton] at hr
    subst hr
    rfl
  · intro r hr
    simp only [jobWrapperFireRuns, start_measurement_by_config, start_measurement_logic] at hr
    simp at hr
    rcases hr with rfl | rfl | rfl <;> rfl

/-- C5 witness: a concrete manual trigger persists one run with
`scheduled = false`, and a concrete scheduled fire persists only
`scheduled = true` rows. -/
theorem manual_trigger_scheduled_flag_witness :
    ((DeviceEnv.mk true true true true true true true true true (fun _ => true) true).saveMeasurementOk = true) ∧
    ((∃ runs, start_measurement_logic
          (DeviceEnv.mk true true true true true true true true true (fun _ => true) true)
          false (some (.create (MeasurementConfigCreateSchema.mk true false 1 10)))
          (MeasurementConfigSchema.mk 60 0 true false 1 10)
        = some runs ∧ runs ≠ [] ∧ ∀ r ∈ runs, r.scheduled = false) ∧
      (∀ r ∈ jobWrapperFireRuns
          (DeviceEnv.mk true true true true true true true true true (fun _ => true) true)
          (MeasurementConfigSchema.mk 60 0 true false 1 10), r.scheduled = true)) :=
  ⟨rfl,
    manual_trigger_scheduled_flag
      (DeviceEnv.mk true true true true true true true true true (fun _ => true) true)
      (MeasurementConfigSchema.mk 60 0 true false 1 10)
      (MeasurementConfigCreateSchema.mk true false 1 10) rfl⟩

/-- C9 (confirmed): one fire of the recurring loop persists three
measurement rows when persistence succeeds, all flagged `scheduled=true`:
one saved directly by the loop body's `start_measurement_by_config` call,
one saved by the registered callback `start_measurement_logic`, and — the
fetched configuration being a full `MeasurementConfigSchema` — one more
saved by the callback's own `start_measurement_by_config` call. -/
theorem scheduled_fire_persists_three_runs
    (env : DeviceEnv) (stored : MeasurementConfigSchema)
    (hsave : env.saveMeasurementOk = true) :
    (jobWrapperFireRuns env stored).length = 3 ∧
    ∀ r ∈ jobWrapperFireRuns env stored, r.scheduled = true := by
  rcases env with ⟨rc, rcap, ru, mc, mcap, mu, da, fo, am, au, so⟩
  cases so
  · exact absurd hsave (by simp)
  refine ⟨rfl, ?_⟩
  intro r hr
  simp only [jobWrapperFireRuns, start_measurement_by_config, start_measurement_logic] at hr
  simp at hr
  rcases hr with rfl | rfl | rfl <;> rfl

/-- C9 witness: a concrete scheduled fire with all collaborators
succeeding persists exactly three rows. -/
theorem scheduled_fire_persists_three_runs_witness :
    ((DeviceEnv.mk true true true true true true true true true (fun _ => true) true).saveMeasurementOk = true) ∧
    ((jobWrapperFireRuns
        (DeviceEnv.mk true true true true true true true true true (fun _ => true) true)
        (MeasurementConfigSchema.mk 60 0 true false 1 10)).length = 3 ∧
      ∀ r ∈ jobWrapperFireRuns
        (DeviceEnv.mk true true true true true true true true true (fun _ => true) true)
        (MeasurementConfigSchema.mk 60 0 true false 1 10), r.scheduled = true) :=
  ⟨rfl,
    scheduled_fire_persists_three_runs
      (DeviceEnv.mk true true true true true true true true true (fun _ => true) true)
      (MeasurementConfigSchema.mk 60 0 true false 1 10) rfl⟩

end ProjectASS
